import Mathlib

/-!
Verification of the BigQuery MCP server core against its specification.

The definitions below are shallow embeddings of the Python modules
`bigquery_service.py`, `validators.py`, `aws_secrets.py` and `server.py`:
pure functions become Lean functions, the stateful client lifecycle becomes
explicit state passing, and remote calls become oracle parameters supplying
the outcome of each attempt.
-/

namespace BigQueryMCP

/-! ## Query result chunking (`bigquery_service.execute_query`, lines 140-178) -/

/-- A streamed subset of query results (`QueryChunk` dataclass). -/
structure QueryChunk (ρ : Type) where
  chunk_index : Nat
  rows : List ρ
deriving DecidableEq, Repr

/-- After the row loop terminates, a non-empty partial chunk is flushed
(`if current_chunk: chunks.append(...)`). -/
def flushFinal {ρ : Type} (chunks : List (QueryChunk ρ)) (chunkIndex : Nat)
    (current : List ρ) : List (QueryChunk ρ) :=
  if current.isEmpty then chunks else chunks ++ [⟨chunkIndex, current⟩]

/-- The row-iteration loop of `execute_query`: each row is appended to the
current chunk and counted; a chunk is flushed once it reaches the configured
chunk size `C`; iteration breaks once `maxRows` rows have been consumed.
The list of remaining rows plays the role of the iterator. -/
def chunkLoop {ρ : Type} (C maxRows : Nat) :
    List ρ → Nat → Nat → List (QueryChunk ρ) → List ρ → Nat × List (QueryChunk ρ)
  | [], rowCount, chunkIndex, chunks, current =>
      (rowCount, flushFinal chunks chunkIndex current)
  | r :: rest, rowCount, chunkIndex, chunks, current =>
      let current' := current ++ [r]
      let rowCount' := rowCount + 1
      if C ≤ current'.length then
        let chunks' := chunks ++ [⟨chunkIndex, current'⟩]
        if maxRows ≤ rowCount' then
          (rowCount', flushFinal chunks' (chunkIndex + 1) [])
        else
          chunkLoop C maxRows rest rowCount' (chunkIndex + 1) chunks' []
      else
        if maxRows ≤ rowCount' then
          (rowCount', flushFinal chunks chunkIndex current')
        else
          chunkLoop C maxRows rest rowCount' chunkIndex chunks current'

/-- Row count and chunk list produced by `execute_query` for a stream of
rows, starting from the empty accumulation state. -/
def executeQueryChunks {ρ : Type} (rows : List ρ) (C maxRows : Nat) :
    Nat × List (QueryChunk ρ) :=
  chunkLoop C maxRows rows 0 0 [] []

/-- `truncated = total_rows is not None and row_count < total_rows`
(line 165). -/
def truncatedFlag (total_rows : Option Nat) (row_count : Nat) : Bool :=
  match total_rows with
  | none => false
  | some t => decide (row_count < t)

/-- The fields of the returned `QueryResult` that the data-flow claims are
about (job metadata and timing omitted: they are copied verbatim from the
remote job object). -/
structure QueryResult (ρ : Type) where
  row_count : Nat
  chunks : List (QueryChunk ρ)
  truncated : Bool
deriving DecidableEq, Repr

/-- The pure core of `BigQueryService.execute_query` after a successful
submission: `rows` is the row stream the iterator yields, `total_rows` the
warehouse-reported total (if any). -/
def executeQueryResult {ρ : Type} (rows : List ρ) (C maxRows : Nat)
    (total_rows : Option Nat) : QueryResult ρ :=
  let res := executeQueryChunks rows C maxRows
  { row_count := res.1, chunks := res.2, truncated := truncatedFlag total_rows res.1 }

/-! ## SQL validation (`validators.validate_sql_query`) -/

/-- The whitespace characters recognised by the Python `str.strip()` /
`str.split(None)` for ASCII input. -/
def pyIsSpace (c : Char) : Bool :=
  c = ' ' || c = '\t' || c = '\n' || c = '\x0d' || c = '\x0b' || c = '\x0c'

/-- Python `str.strip()`: remove leading and trailing whitespace. -/
def pyStrip (s : List Char) : List Char :=
  ((s.dropWhile pyIsSpace).reverse.dropWhile pyIsSpace).reverse

/-- Python `str.lower()` on ASCII text, applied character-wise. -/
def pyLower (s : List Char) : List Char :=
  s.map Char.toLower

/-- `lower.split(None, 1)[0]` on a stripped, non-empty string: the leading
run of non-whitespace characters. -/
def firstToken (s : List Char) : List Char :=
  s.takeWhile (fun c => ¬ pyIsSpace c)

def READ_ONLY_SET : List (List Char) :=
  ["select".data, "with".data, "explain".data]

def PROHIBITED_SET : List (List Char) :=
  ["insert".data, "update".data, "delete".data, "drop".data, "alter".data,
   "create".data, "merge".data, "truncate".data, "grant".data, "revoke".data]

def emptyQueryMsg : List Char := "SQL query cannot be empty".data

def readOnlyMsg : List Char :=
  "Only read-only queries are allowed (SELECT/WITH/EXPLAIN).".data

def mustStartMsg : List Char :=
  "SQL must start with SELECT, WITH, or EXPLAIN for safety.".data

def multiStatementMsg : List Char := "Multiple SQL statements are not supported".data

/-- `validate_sql_query`: checks emptiness, the prohibited prefix set, the
allowed prefix set, embedded semicolons (`";" in normalized[:-1]`), then
strips a single trailing semicolon and returns the re-stripped result. -/
def validate_sql_query (sql : List Char) : Except (List Char) (List Char) :=
  if (pyStrip sql).isEmpty then .error emptyQueryMsg
  else
    let normalized := pyStrip sql
    let lower := pyLower normalized
    let first_token := firstToken lower
    if first_token ∈ PROHIBITED_SET then .error readOnlyMsg
    else if first_token ∉ READ_ONLY_SET then .error mustStartMsg
    else if ';' ∈ normalized.dropLast then .error multiStatementMsg
    else if normalized.getLast? = some ';' then .ok (pyStrip normalized.dropLast)
    else .ok (pyStrip normalized)

/-! ## Secret retrieval with retry (`aws_secrets.fetch_service_account`) -/

/-- Outcome of one `get_secret_value` + decode + parse attempt:
either a parsed JSON-object payload, a `botocore.ClientError` carrying an
error code, or a payload that fails decoding/validation (raised immediately
as `CredentialRetrievalError` / from `json.JSONDecodeError`). -/
inductive AttemptOutcome (α : Type) where
  | success (payload : α)
  | clientError (code : List Char)
  | parseError
deriving DecidableEq, Repr

def throttlingCodes : List (List Char) :=
  ["ThrottlingException".data, "TooManyRequestsException".data]

/-- Observable trace of one `fetch_service_account` call: how many
attempts were made, the backoff sleeps performed (in seconds), and whether a
payload was returned or `CredentialRetrievalError` raised. -/
structure FetchTrace (α : Type) where
  attemptsMade : Nat
  sleeps : List ℚ
  result : Except Unit α
deriving Repr

/-- The `for attempt in range(3)` retry loop: `fuel` counts the remaining
loop iterations, `attempt` is the loop variable. A throttling-class
`ClientError` with `attempt < 2` sleeps `2**attempt * 0.5` seconds and
continues; any other `ClientError`, or a parse failure, raises immediately. -/
def fetchGo {α : Type} (oracle : Nat → AttemptOutcome α) :
    Nat → Nat → List ℚ → FetchTrace α
  | 0, attempt, sleeps => ⟨attempt, sleeps, .error ()⟩
  | fuel + 1, attempt, sleeps =>
      match oracle attempt with
      | .success p => ⟨attempt + 1, sleeps, .ok p⟩
      | .clientError code =>
          if code ∈ throttlingCodes ∧ attempt < 2 then
            fetchGo oracle fuel (attempt + 1) (sleeps ++ [2 ^ attempt * (1 / 2 : ℚ)])
          else ⟨attempt + 1, sleeps, .error ()⟩
      | .parseError => ⟨attempt + 1, sleeps, .error ()⟩

/-- `fetch_service_account`, with the remote call modelled by `oracle`
(the outcome of the k-th zero-based attempt). -/
def fetch_service_account {α : Type} (oracle : Nat → AttemptOutcome α) : FetchTrace α :=
  fetchGo oracle 3 0 []

/-! ## Client lifecycle (`BigQueryService.refresh_client` / `close`) -/

/-- The service-account payload, as far as the lifecycle logic inspects it:
`credentials_info.get("project_id")`.  the Python `or` operator treats an empty string
as falsy, so the field is an optional string. -/
structure CredentialPayload where
  project_id : Option (List Char)
deriving DecidableEq, Repr

/-- The lock-guarded mutable state of `BigQueryService`: the optional client
handle (identified by a numeric id) and the last-installed payload.
`closedHandles` is the trace of handles on which `.close()` was invoked. -/
structure ServiceState where
  client : Option Nat
  credentials_info : Option CredentialPayload
  closedHandles : List Nat
deriving DecidableEq, Repr

/-- `project = self._default_project or credentials_info.get("project_id")`
followed by `if not project`: Python `or` falls through on `None` and on the
empty string, and `not project` is true for both. -/
def effectiveProject (default_project : Option (List Char))
    (pid : Option (List Char)) : Option (List Char) :=
  let p :=
    match default_project with
    | some s => if s.isEmpty then pid else some s
    | none => pid
  match p with
  | some s => if s.isEmpty then none else some s
  | none => none

/-- Errors `refresh_client` can raise: a loader failure is wrapped as
`CredentialRefreshError`, a missing project raises `ConfigurationError`,
and an exception from the credential/client constructors propagates
unwrapped (`constructionError`). -/
inductive RefreshError where
  | credentialRefreshError
  | configurationError
  | constructionError
deriving DecidableEq, Repr

/-- `refresh_client`: load credentials (wrapping a loader failure as
`CredentialRefreshError`), resolve the effective project (else
`ConfigurationError`), build the new client (`newHandle`; `none` models the
client constructor raising), and only then — under the lock — close any
existing handle and install the new client and payload.  On any error the
state is returned untouched. -/
def refresh_client (st : ServiceState)
    (loaded : Option CredentialPayload)
    (default_project : Option (List Char))
    (newHandle : Option Nat) : ServiceState × Option RefreshError :=
  match loaded with
  | none => (st, some .credentialRefreshError)
  | some info =>
      match effectiveProject default_project info.project_id with
      | none => (st, some .configurationError)
      | some _ =>
          match newHandle with
          | none => (st, some .constructionError)
          | some h =>
              ({ client := some h,
                 credentials_info := some info,
                 closedHandles := st.closedHandles ++ st.client.toList }, none)

/-- `close`: under the lock, close the handle if present and clear it. -/
def close (st : ServiceState) : ServiceState :=
  match st.client with
  | some h => { st with client := none, closedHandles := st.closedHandles ++ [h] }
  | none => st

/-! ## Table references (`BigQueryService._build_table_reference`) -/

/-- `_build_table_reference`: strip backtick quotes and surrounding
whitespace from the dataset id; a dataset id containing a dot is already
project-qualified and used verbatim, otherwise the default project is
prepended. -/
def build_table_reference (dataset_id table_name default_project : List Char) :
    List Char :=
  let sanitized_dataset := pyStrip (dataset_id.filter (fun c => c ≠ '\x60'))
  if '.' ∈ sanitized_dataset then sanitized_dataset ++ '.' :: table_name
  else default_project ++ '.' :: sanitized_dataset ++ '.' :: table_name

/-! ## Auth-error handling during submission (`execute_query` lines 128-138,
`_maybe_refresh_on_auth_error`) -/

/-- What `refresh_client` does when invoked from the auth-error handler:
succeed, raise `CredentialRefreshError` (loader failure), raise
`ConfigurationError` (no resolvable project), or let an exception from the
credential/client constructors propagate unwrapped (a `ValueError`/`KeyError`
from `from_service_account_info` on a secret lacking key material, or a
`bigquery.Client` failure) — the same four outcomes the `refresh_client`
state model distinguishes. -/
inductive RefreshOutcome where
  | ok
  | credentialRefreshError
  | configurationError
  | constructionError
deriving DecidableEq, Repr

/-- Exceptions that can escape the submission handler of `execute_query`:
the wrapped `QueryExecutionError`, or whatever the refresh attempt raised
past the `except CredentialRefreshError` clause — a `ConfigurationError` or
an unwrapped constructor exception. -/
inductive ExecError where
  | queryExecutionError
  | configurationError
  | constructionError
deriving DecidableEq, Repr

/-- Outcome of submitting the query (`client.query` + `job.result`):
either an iterator over rows with an optional reported total, or a
`GoogleAPICallError` whose `code` attribute may be absent. -/
inductive SubmitOutcome (ρ : Type) where
  | success (rows : List ρ) (total_rows : Option Nat)
  | apiError (code : Option Nat)
deriving Repr

/-- `_maybe_refresh_on_auth_error`: on a 401/403 code, attempt one refresh,
swallowing `CredentialRefreshError` only.  Returns the number of refresh
attempts made and the exception escaping the helper, if any. -/
def maybe_refresh_on_auth_error (code : Option Nat) (refresh : RefreshOutcome) :
    Nat × Option ExecError :=
  if code = some 401 ∨ code = some 403 then
    (1, match refresh with
        | .ok => none
        | .credentialRefreshError => none
        | .configurationError => some .configurationError
        | .constructionError => some .constructionError)
  else (0, none)

/-- Observable trace of one `execute_query` call: how many times the query
was submitted, how many refresh attempts were made, and the outcome. -/
structure ExecTrace (ρ : Type) where
  submissions : Nat
  refreshAttempts : Nat
  result : Except ExecError (QueryResult ρ)
deriving Repr

/-- `execute_query` around submission: a successful submission streams the
rows through the chunking loop; a failed submission runs the auth-error
helper and then raises `QueryExecutionError` — unless the helper itself
raised, in which case that exception propagates.  The query is never
re-submitted. -/
def execute_query {ρ : Type} (submit : SubmitOutcome ρ) (refresh : RefreshOutcome)
    (C maxRows : Nat) : ExecTrace ρ :=
  match submit with
  | .success rows total_rows =>
      ⟨1, 0, .ok (executeQueryResult rows C maxRows total_rows)⟩
  | .apiError code =>
      let r := maybe_refresh_on_auth_error code refresh
      ⟨1, r.1, .error (r.2.getD .queryExecutionError)⟩

/-! ## Row-limit clamping (`server.execute_query`, lines 184-199) -/

/-- Outcome of the tool-level limit handling. -/
inductive ServerOutcome where
  | invalidSql
  | success (reported_max_rows : Int)
deriving DecidableEq, Repr

/-- The `rows_limit` computation in the `execute_query` tool: use the
caller-supplied `max_rows` when it is an integer, else the configured default;
clamp to the default when larger; reject non-positive limits with the
`INVALID_SQL` envelope before the warehouse is contacted.  The boolean
records whether the warehouse call is reached, and a successful payload
reports the effective `rows_limit` as its `max_rows`. -/
def server_rows_limit (max_rows : Option Int) (default_limit : Int) :
    Bool × ServerOutcome :=
  let rows_limit := match max_rows with | some m => m | none => default_limit
  let rows_limit := if default_limit < rows_limit then default_limit else rows_limit
  if rows_limit ≤ 0 then (false, .invalidSql)
  else (true, .success rows_limit)

/-! ## Specification predicates -/

/-- Modelled from the words of the claim for comparison with the code: the
trimmed input with a single trailing semicolon (if present) removed and
nothing else changed. -/
def claimedNormalizedSql (sql : List Char) : List Char :=
  let normalized := pyStrip sql
  if normalized.getLast? = some ';' then normalized.dropLast else normalized

/-- The chunk-shape invariant claimed for a `(row_count, chunks)` pair:
`ceil(row_count / C)` chunks, contiguous zero-based indices, all chunks but
possibly the last of size exactly `C`, and chunk sizes summing to
`row_count`. -/
def ChunksOK {ρ : Type} (C : Nat) (out : Nat × List (QueryChunk ρ)) : Prop :=
  out.2.length = (out.1 + C - 1) / C ∧
  out.2.map QueryChunk.chunk_index = List.range out.2.length ∧
  (∀ ch ∈ out.2.dropLast, ch.rows.length = C) ∧
  (out.2.map (fun ch => ch.rows.length)).sum = out.1

/-! ## Arithmetic and list helper lemmas -/

theorem ceilDiv_full (C k : Nat) (hC : 1 ≤ C) : (C * k + C - 1) / C = k := by
  have h1 : C * k + C - 1 = C * k + (C - 1) := by omega
  rw [h1, Nat.mul_add_div (by omega), Nat.div_eq_of_lt (by omega)]
  omega

theorem ceilDiv_rem (C k s : Nat) (hC : 1 ≤ C) (h1 : 1 ≤ s) (hs : s < C) :
    (C * k + s + C - 1) / C = k + 1 := by
  have h2 : C * k + s + C - 1 = C * k + ((s - 1) + C) := by omega
  rw [h2, Nat.mul_add_div (by omega), Nat.add_div_right _ (by omega),
    Nat.div_eq_of_lt (by omega)]

theorem sum_rows_of_full {ρ : Type} (C : Nat) :
    ∀ l : List (QueryChunk ρ), (∀ ch ∈ l, ch.rows.length = C) →
      (l.map (fun ch => ch.rows.length)).sum = C * l.length := by
  intro l
  induction l with
  | nil => simp
  | cons a t ih =>
      intro h
      simp only [List.map_cons, List.sum_cons, List.length_cons]
      rw [h a (by simp), ih (fun ch hch => h ch (by simp [hch]))]
      ring

theorem flushFinal_ok {ρ : Type} (C : Nat) (hC : 1 ≤ C)
    (chunks : List (QueryChunk ρ)) (current : List ρ) (rowCount cidx : Nat)
    (hcidx : cidx = chunks.length)
    (hcur : current.length < C)
    (hidx : chunks.map QueryChunk.chunk_index = List.range chunks.length)
    (hfull : ∀ ch ∈ chunks, ch.rows.length = C)
    (hcount : rowCount = C * chunks.length + current.length) :
    ChunksOK C (rowCount, flushFinal chunks cidx current) := by
  by_cases hce : current.isEmpty
  · have hcur0 : current.length = 0 := by
      cases current with
      | nil => rfl
      | cons a t => simp [List.isEmpty] at hce
    refine ⟨?_, ?_, ?_, ?_⟩
    · simp only [flushFinal, if_pos hce]
      rw [hcount, hcur0, Nat.add_zero, ceilDiv_full C chunks.length hC]
    · simpa only [flushFinal, if_pos hce] using hidx
    · simp only [flushFinal, if_pos hce]
      exact fun ch hch => hfull ch (List.dropLast_sublist chunks |>.subset hch)
    · simp only [flushFinal, if_pos hce]
      rw [sum_rows_of_full C chunks hfull, hcount, hcur0, Nat.add_zero]
  · have hcur1 : 1 ≤ current.length := by
      cases current with
      | nil => simp [List.isEmpty] at hce
      | cons a t => simp
    refine ⟨?_, ?_, ?_, ?_⟩
    · simp only [flushFinal, if_neg hce, List.length_append, List.length_cons,
        List.length_nil]
      rw [hcount, ceilDiv_rem C chunks.length current.length hC hcur1 hcur]
    · simp only [flushFinal, if_neg hce, List.map_append, List.map_cons,
        List.map_nil, List.length_append, List.length_cons, List.length_nil,
        hidx, hcidx]
      rw [Nat.add_zero, ← List.range_succ]
    · simp only [flushFinal, if_neg hce, List.dropLast_concat]
      exact hfull
    · simp only [flushFinal, if_neg hce, List.map_append, List.map_cons,
        List.map_nil, List.sum_append, List.sum_cons, List.sum_nil]
      rw [sum_rows_of_full C chunks hfull, hcount, Nat.add_zero]

theorem chunkLoop_ok {ρ : Type} (C maxRows : Nat) (hC : 1 ≤ C) (rows : List ρ) :
    ∀ (chunks : List (QueryChunk ρ)) (current : List ρ) (rowCount : Nat),
    current.length < C →
    chunks.map QueryChunk.chunk_index = List.range chunks.length →
    (∀ ch ∈ chunks, ch.rows.length = C) →
    rowCount = C * chunks.length + current.length →
    ChunksOK C (chunkLoop C maxRows rows rowCount chunks.length chunks current) := by
  induction rows with
  | nil =>
      intro chunks current rowCount hcur hidx hfull hcount
      simp only [chunkLoop]
      exact flushFinal_ok C hC chunks current rowCount chunks.length rfl hcur hidx
        hfull hcount
  | cons r rest ih =>
      intro chunks current rowCount hcur hidx hfull hcount
      simp only [chunkLoop]
      by_cases hflush : C ≤ (current ++ [r]).length
      · have hlen : (current ++ [r]).length = C := by
          simp only [List.length_append, List.length_cons, List.length_nil] at hflush ⊢
          omega
        rw [if_pos hflush]
        have hidx' : (chunks ++ [(⟨chunks.length, current ++ [r]⟩ : QueryChunk ρ)]).map
            QueryChunk.chunk_index
            = List.range (chunks ++
                [(⟨chunks.length, current ++ [r]⟩ : QueryChunk ρ)]).length := by
          simp only [List.map_append, List.map_cons, List.map_nil,
            List.length_append, List.length_cons, List.length_nil, hidx]
          rw [Nat.add_zero, ← List.range_succ]
        have hfull' : ∀ ch ∈ chunks ++ [(⟨chunks.length, current ++ [r]⟩ : QueryChunk ρ)],
            ch.rows.length = C := by
          intro ch hch
          rcases List.mem_append.mp hch with h | h
          · exact hfull ch h
          · rcases List.mem_singleton.mp h with rfl
            exact hlen
        have hcount' : rowCount + 1
            = C * (chunks ++ [(⟨chunks.length, current ++ [r]⟩ : QueryChunk ρ)]).length := by
          simp only [List.length_append, List.length_cons, List.length_nil,
            Nat.add_zero, Nat.mul_succ]
          simp only [List.length_append, List.length_cons, List.length_nil] at hlen
          omega
        by_cases hbreak : maxRows ≤ rowCount + 1
        · rw [if_pos hbreak]
          have := flushFinal_ok C hC
            (chunks ++ [(⟨chunks.length, current ++ [r]⟩ : QueryChunk ρ)])
            [] (rowCount + 1) (chunks.length + 1)
            (by simp) (by simpa using hC) hidx' hfull' (by rw [hcount']; simp)
          exact this
        · rw [if_neg hbreak]
          have := ih (chunks ++ [(⟨chunks.length, current ++ [r]⟩ : QueryChunk ρ)])
            [] (rowCount + 1)
            (by simpa using hC) hidx' hfull' (by rw [hcount']; simp)
          simpa using this
      · rw [if_neg hflush]
        have hcur' : (current ++ [r]).length < C := by omega
        have hcount' : rowCount + 1 = C * chunks.length + (current ++ [r]).length := by
          simp only [List.length_append, List.length_cons, List.length_nil]
          omega
        by_cases hbreak : maxRows ≤ rowCount + 1
        · rw [if_pos hbreak]
          exact flushFinal_ok C hC chunks (current ++ [r]) (rowCount + 1)
            chunks.length rfl hcur' hidx hfull hcount'
        · rw [if_neg hbreak]
          exact ih chunks (current ++ [r]) (rowCount + 1) hcur' hidx hfull hcount'

/-! ## Claim theorems -/

/-- C1: for every query execution returning `N` rows with configured chunk
size `C ≥ 1`, the number of chunks is `ceil(N/C)` (0 when `N = 0`), chunk
indices are `0..chunks-1` contiguous, every chunk except possibly the last
has exactly `C` rows, and the chunk sizes sum to `N = row_count`; this holds
for every `max_rows`, including when iteration breaks mid-chunk and the
partial final chunk is flushed. -/
theorem execute_query_chunk_shape {ρ : Type} (rows : List ρ) (C maxRows : Nat)
    (total_rows : Option Nat) (hC : 1 ≤ C) :
    (executeQueryResult rows C maxRows total_rows).chunks.length
      = ((executeQueryResult rows C maxRows total_rows).row_count + C - 1) / C ∧
    (executeQueryResult rows C maxRows total_rows).chunks.map QueryChunk.chunk_index
      = List.range (executeQueryResult rows C maxRows total_rows).chunks.length ∧
    (∀ ch ∈ (executeQueryResult rows C maxRows total_rows).chunks.dropLast,
      ch.rows.length = C) ∧
    ((executeQueryResult rows C maxRows total_rows).chunks.map
        (fun ch => ch.rows.length)).sum
      = (executeQueryResult rows C maxRows total_rows).row_count := by
  have h := chunkLoop_ok C maxRows hC rows [] [] 0 (by simpa using hC) (by simp)
    (by simp) (by simp)
  simpa [executeQueryResult, executeQueryChunks, ChunksOK] using h

theorem execute_query_chunk_shape_witness :
    1 ≤ 2 ∧
    ((executeQueryResult [1, 2, 3, 4, 5] 2 3 none).chunks.length
      = ((executeQueryResult [1, 2, 3, 4, 5] 2 3 none).row_count + 2 - 1) / 2 ∧
    (executeQueryResult [1, 2, 3, 4, 5] 2 3 none).chunks.map QueryChunk.chunk_index
      = List.range (executeQueryResult [1, 2, 3, 4, 5] 2 3 none).chunks.length ∧
    (∀ ch ∈ (executeQueryResult [1, 2, 3, 4, 5] 2 3 none).chunks.dropLast,
      ch.rows.length = 2) ∧
    ((executeQueryResult [1, 2, 3, 4, 5] 2 3 none).chunks.map
        (fun ch => ch.rows.length)).sum
      = (executeQueryResult [1, 2, 3, 4, 5] 2 3 none).row_count) :=
  ⟨by decide, execute_query_chunk_shape [1, 2, 3, 4, 5] 2 3 none (by decide)⟩

/-- C2: the `truncated` flag of the result is true iff the warehouse reported a
total row count strictly greater than the number of rows returned; when the
total equals the returned count or is absent, `truncated` is false. -/
theorem execute_query_truncated_iff {ρ : Type} (rows : List ρ) (C maxRows : Nat)
    (total_rows : Option Nat) :
    ((executeQueryResult rows C maxRows total_rows).truncated = true ↔
      ∃ n, total_rows = some n ∧
        (executeQueryResult rows C maxRows total_rows).row_count < n) ∧
    (∀ n, total_rows = some n →
      n ≤ (executeQueryResult rows C maxRows total_rows).row_count →
      (executeQueryResult rows C maxRows total_rows).truncated = false) ∧
    (total_rows = none →
      (executeQueryResult rows C maxRows total_rows).truncated = false) := by
  cases total_rows with
  | none => simp [executeQueryResult, truncatedFlag]
  | some t =>
      refine ⟨?_, ?_, ?_⟩
      · simp [executeQueryResult, truncatedFlag]
      · intro n hn hle
        simp only [Option.some.injEq] at hn
        subst hn
        simp only [executeQueryResult, truncatedFlag] at hle ⊢
        simp only [decide_eq_false_iff_not]
        omega
      · intro h
        exact absurd h (by simp)

theorem execute_query_truncated_iff_witness :
    (executeQueryResult [1, 2, 3] 2 10 (some 5)).truncated = true ∧
    (executeQueryResult [1, 2, 3] 2 10 (some 3)).truncated = false :=
  ⟨(execute_query_truncated_iff [1, 2, 3] 2 10 (some 5)).1.mpr ⟨5, rfl, by decide⟩,
   (execute_query_truncated_iff [1, 2, 3] 2 10 (some 3)).2.1 3 rfl (by decide)⟩

/-- C3: for every SQL string that is non-empty after trimming, if the first
whitespace-delimited token of the trimmed input, lower-cased, is in the
prohibited set then validation fails with the read-only message; otherwise,
if it is not in the allowed set, validation fails with the "must start with"
message — the prohibited-set check is applied first. -/
theorem validate_sql_query_prefix_guards (sql : List Char)
    (hne : (pyStrip sql).isEmpty = false) :
    (firstToken (pyLower (pyStrip sql)) ∈ PROHIBITED_SET →
      validate_sql_query sql = .error readOnlyMsg) ∧
    (firstToken (pyLower (pyStrip sql)) ∉ PROHIBITED_SET →
      firstToken (pyLower (pyStrip sql)) ∉ READ_ONLY_SET →
      validate_sql_query sql = .error mustStartMsg) := by
  constructor
  · intro hp
    simp [validate_sql_query, hne, hp]
  · intro hp ha
    simp [validate_sql_query, hne, hp, ha]

theorem validate_sql_query_prefix_guards_witness :
    (pyStrip "DROP TABLE t".data).isEmpty = false ∧
    validate_sql_query "DROP TABLE t".data = .error readOnlyMsg ∧
    validate_sql_query "SHOW TABLES".data = .error mustStartMsg :=
  ⟨by decide,
   (validate_sql_query_prefix_guards "DROP TABLE t".data (by decide)).1 (by decide),
   (validate_sql_query_prefix_guards "SHOW TABLES".data (by decide)).2
     (by decide) (by decide)⟩

/-- C4 counterexample: the claim says validation returns the trimmed input
with a single trailing semicolon removed and nothing else changed, but for
`"SELECT 1 ;"` the code re-strips the result after removing the semicolon:
it returns `"SELECT 1"`, not `"SELECT 1 "`. -/
theorem validate_trailing_semicolon_counterexample :
    validate_sql_query "SELECT 1 ;".data = .ok "SELECT 1".data ∧
    claimedNormalizedSql "SELECT 1 ;".data = "SELECT 1 ".data ∧
    "SELECT 1 ".data ≠ "SELECT 1".data := by
  refine ⟨rfl, rfl, by decide⟩

/-- C4 (amended): for every SQL string passing the prefix checks, a
semicolon anywhere except as the final character of the trimmed input makes
validation fail with the multi-statement message; otherwise validation
returns the trimmed input with a single trailing semicolon (if present)
removed and the result re-trimmed (whitespace exposed by the removal is also
stripped); character case is preserved. -/
theorem validate_sql_query_semicolon_behavior (sql : List Char)
    (hp : firstToken (pyLower (pyStrip sql)) ∉ PROHIBITED_SET)
    (ha : firstToken (pyLower (pyStrip sql)) ∈ READ_ONLY_SET) :
    ((';' ∈ (pyStrip sql).dropLast) →
      validate_sql_query sql = .error multiStatementMsg) ∧
    ((';' ∉ (pyStrip sql).dropLast) →
      validate_sql_query sql = .ok (pyStrip (claimedNormalizedSql sql))) := by
  have hne : (pyStrip sql).isEmpty = false := by
    cases hx : pyStrip sql with
    | nil =>
        rw [hx] at ha
        exact absurd ha (by decide)
    | cons a t => rfl
  constructor
  · intro hs
    simp [validate_sql_query, hne, hp, ha, hs]
  · intro hs
    by_cases hlast : (pyStrip sql).getLast? = some ';'
    · simp [validate_sql_query, claimedNormalizedSql, hne, hp, ha, hs, hlast]
    · simp [validate_sql_query, claimedNormalizedSql, hne, hp, ha, hs, hlast]

theorem validate_sql_query_semicolon_behavior_witness :
    validate_sql_query "SELECT 1;".data = .ok "SELECT 1".data ∧
    validate_sql_query "SELECT 1; SELECT 2".data = .error multiStatementMsg := by
  constructor
  · have h := (validate_sql_query_semicolon_behavior "SELECT 1;".data
      (by decide) (by decide)).2 (by decide)
    rw [h]
    rfl
  · exact (validate_sql_query_semicolon_behavior "SELECT 1; SELECT 2".data
      (by decide) (by decide)).1 (by decide)

theorem fetchGo_attempts_le {α : Type} (oracle : Nat → AttemptOutcome α) :
    ∀ (fuel attempt : Nat) (sleeps : List ℚ),
      (fetchGo oracle fuel attempt sleeps).attemptsMade ≤ attempt + fuel := by
  intro fuel
  induction fuel with
  | zero => intro attempt sleeps; simp [fetchGo]
  | succ n ih =>
      intro attempt sleeps
      simp only [fetchGo]
      split
      · dsimp only
        omega
      · split
        · exact le_trans (ih (attempt + 1) _) (by omega)
        · dsimp only
          omega
      · dsimp only
        omega

/-- C5: `fetch_service_account` makes at most 3 attempts; throttling on
attempts 0 and 1 sleeps `0.5s` then `1.0s` and retries, so throttling twice
followed by success on the third attempt returns the payload; a
non-throttling remote error fails immediately with no further attempts, and
throttling on the final attempt fails with no fourth attempt. -/
theorem fetch_service_account_retry_policy {α : Type}
    (oracle : Nat → AttemptOutcome α) :
    (fetch_service_account oracle).attemptsMade ≤ 3 ∧
    (∀ c0 c1 p, c0 ∈ throttlingCodes → c1 ∈ throttlingCodes →
      oracle 0 = .clientError c0 → oracle 1 = .clientError c1 →
      oracle 2 = .success p →
      fetch_service_account oracle
        = ⟨3, [(1 : ℚ) / 2, 1], .ok p⟩) ∧
    (∀ c, c ∉ throttlingCodes → oracle 0 = .clientError c →
      fetch_service_account oracle = ⟨1, [], .error ()⟩) ∧
    (∀ c0 c1, c0 ∈ throttlingCodes → c1 ∉ throttlingCodes →
      oracle 0 = .clientError c0 → oracle 1 = .clientError c1 →
      fetch_service_account oracle = ⟨2, [(1 : ℚ) / 2], .error ()⟩) ∧
    (∀ c0 c1 c2, c0 ∈ throttlingCodes → c1 ∈ throttlingCodes →
      c2 ∈ throttlingCodes →
      oracle 0 = .clientError c0 → oracle 1 = .clientError c1 →
      oracle 2 = .clientError c2 →
      fetch_service_account oracle = ⟨3, [(1 : ℚ) / 2, 1], .error ()⟩) := by
  refine ⟨fetchGo_attempts_le oracle 3 0 [], ?_, ?_, ?_, ?_⟩
  · intro c0 c1 p h0 h1 e0 e1 e2
    simp [fetch_service_account, fetchGo, e0, e1, e2, h0, h1]
  · intro c hc e0
    simp [fetch_service_account, fetchGo, e0, hc]
  · intro c0 c1 h0 h1 e0 e1
    simp [fetch_service_account, fetchGo, e0, e1, h0, h1]
  · intro c0 c1 c2 h0 h1 h2 e0 e1 e2
    simp [fetch_service_account, fetchGo, e0, e1, e2, h0, h1, h2]

theorem fetch_service_account_retry_policy_witness :
    fetch_service_account (fun k => if k < 2
        then AttemptOutcome.clientError "ThrottlingException".data
        else AttemptOutcome.success (42 : Nat))
      = ⟨3, [(1 : ℚ) / 2, 1], .ok 42⟩ :=
  (fetch_service_account_retry_policy (fun k => if k < 2
        then AttemptOutcome.clientError "ThrottlingException".data
        else AttemptOutcome.success (42 : Nat))).2.1
    "ThrottlingException".data "ThrottlingException".data 42
    (by decide) (by decide) rfl rfl rfl

/-- C6 counterexample: the claim says a 401/403 submission failure always
ends in `QueryExecutionError` after the single refresh attempt, but the
handler swallows only `CredentialRefreshError` — any other exception raised
by the refresh propagates instead of `QueryExecutionError`.  Shown here for
a `ConfigurationError` (fresh secret with no project id and no configured
default); an unwrapped constructor error (fresh secret lacking key
material) escapes the same way. -/
theorem execute_query_auth_refresh_counterexample :
    (execute_query (ρ := Unit) (.apiError (some 401))
        .configurationError 1 1).result
      = .error .configurationError ∧
    (execute_query (ρ := Unit) (.apiError (some 401))
        .configurationError 1 1).result
      ≠ .error .queryExecutionError := by
  constructor
  · rfl
  · simp [execute_query, maybe_refresh_on_auth_error]

/-- C6 (amended): on a submission failure with status 401 or 403,
`execute_query` attempts exactly one credential refresh; if the refresh
succeeds or raises `CredentialRefreshError` (which is swallowed) it then
raises `QueryExecutionError`, but any other exception raised by the refresh
attempt — a `ConfigurationError` or an unwrapped constructor error —
propagates in place of `QueryExecutionError`; for any other status code it
raises `QueryExecutionError` with no refresh attempt; the query is
submitted exactly once in every case. -/
theorem execute_query_auth_refresh_behavior {ρ : Type}
    (code : Option Nat) (refresh : RefreshOutcome) (C maxRows : Nat) :
    (execute_query (ρ := ρ) (.apiError code) refresh C maxRows).submissions = 1 ∧
    ((code = some 401 ∨ code = some 403) →
      (execute_query (ρ := ρ) (.apiError code) refresh C maxRows).refreshAttempts
        = 1 ∧
      ((refresh = .ok ∨ refresh = .credentialRefreshError) →
        (execute_query (ρ := ρ) (.apiError code) refresh C maxRows).result
          = .error .queryExecutionError) ∧
      (refresh = .configurationError →
        (execute_query (ρ := ρ) (.apiError code) refresh C maxRows).result
          = .error .configurationError) ∧
      (refresh = .constructionError →
        (execute_query (ρ := ρ) (.apiError code) refresh C maxRows).result
          = .error .constructionError)) ∧
    (¬(code = some 401 ∨ code = some 403) →
      (execute_query (ρ := ρ) (.apiError code) refresh C maxRows).refreshAttempts
        = 0 ∧
      (execute_query (ρ := ρ) (.apiError code) refresh C maxRows).result
        = .error .queryExecutionError) := by
  refine ⟨rfl, ?_, ?_⟩
  · intro hcode
    refine ⟨?_, ?_, ?_, ?_⟩
    · simp [execute_query, maybe_refresh_on_auth_error, hcode]
    · intro hr
      rcases hr with hr | hr
      · subst hr
        simp [execute_query, maybe_refresh_on_auth_error, hcode]
      · subst hr
        simp [execute_query, maybe_refresh_on_auth_error, hcode]
    · intro hr
      subst hr
      simp [execute_query, maybe_refresh_on_auth_error, hcode]
    · intro hr
      subst hr
      simp [execute_query, maybe_refresh_on_auth_error, hcode]
  · intro hcode
    constructor
    · simp [execute_query, maybe_refresh_on_auth_error, hcode]
    · simp [execute_query, maybe_refresh_on_auth_error, hcode]

theorem execute_query_auth_refresh_behavior_witness :
    ((some 403 : Option Nat) = some 401 ∨ (some 403 : Option Nat) = some 403) ∧
    (execute_query (ρ := Unit) (.apiError (some 403))
        .credentialRefreshError 1 1).refreshAttempts = 1 ∧
    (execute_query (ρ := Unit) (.apiError (some 403))
        .credentialRefreshError 1 1).result = .error .queryExecutionError := by
  have h := (execute_query_auth_refresh_behavior (ρ := Unit) (some 403)
    .credentialRefreshError 1 1).2.1 (Or.inr rfl)
  exact ⟨Or.inr rfl, h.1, h.2.1 (Or.inr rfl)⟩

/-- C7: the table reference strips backticks and surrounding whitespace from
the dataset id; a sanitized dataset id containing a dot is used verbatim as
`{dataset}.{table}`, otherwise the default project of the client is prepended as
`{project}.{dataset}.{table}`. -/
theorem build_table_reference_qualification
    (dataset_id table_name default_project : List Char) :
    ('.' ∈ pyStrip (dataset_id.filter (fun c => c ≠ '\x60')) →
      build_table_reference dataset_id table_name default_project
        = pyStrip (dataset_id.filter (fun c => c ≠ '\x60')) ++ '.' :: table_name) ∧
    ('.' ∉ pyStrip (dataset_id.filter (fun c => c ≠ '\x60')) →
      build_table_reference dataset_id table_name default_project
        = default_project ++ '.' ::
            (pyStrip (dataset_id.filter (fun c => c ≠ '\x60')) ++ '.' :: table_name)) := by
  constructor
  · intro h
    simp only [build_table_reference]
    rw [if_pos h]
  · intro h
    simp only [build_table_reference]
    rw [if_neg h]
    simp

theorem build_table_reference_qualification_witness :
    build_table_reference "proj.ds".data "tbl".data "defproj".data
      = "proj.ds.tbl".data ∧
    build_table_reference " \x60ds\x60 ".data "tbl".data "defproj".data
      = "defproj.ds.tbl".data := by
  constructor
  · have h := (build_table_reference_qualification "proj.ds".data "tbl".data
      "defproj".data).1 (by decide)
    rw [h]
    rfl
  · have h := (build_table_reference_qualification " \x60ds\x60 ".data "tbl".data
      "defproj".data).2 (by decide)
    rw [h]
    rfl

/-- C8: the tool-level `execute_query` clamps the effective row limit: a
caller-supplied `max_rows` above the configured default is replaced by the
default (and the payload reports the clamped value); a non-positive
`max_rows` yields the `INVALID_SQL` error envelope without contacting the
warehouse; an absent `max_rows` uses the default. -/
theorem server_execute_query_max_rows_clamping (m default_limit : Int)
    (hd : 0 < default_limit) :
    (default_limit < m →
      server_rows_limit (some m) default_limit
        = (true, .success default_limit)) ∧
    (m ≤ 0 →
      server_rows_limit (some m) default_limit = (false, .invalidSql)) ∧
    server_rows_limit none default_limit = (true, .success default_limit) := by
  refine ⟨?_, ?_, ?_⟩
  · intro h
    simp only [server_rows_limit, if_pos h]
    rw [if_neg (show ¬ default_limit ≤ 0 by omega)]
  · intro h
    have hcl : ¬ default_limit < m := by omega
    simp only [server_rows_limit, if_neg hcl]
    rw [if_pos h]
  · have hcl : ¬ default_limit < default_limit := by omega
    simp only [server_rows_limit, if_neg hcl]
    rw [if_neg (show ¬ default_limit ≤ 0 by omega)]

theorem server_execute_query_max_rows_clamping_witness :
    (0 : Int) < 10000 ∧
    server_rows_limit (some 20000) 10000 = (true, .success 10000) ∧
    server_rows_limit (some (-5)) 10000 = (false, .invalidSql) ∧
    server_rows_limit none 10000 = (true, .success 10000) :=
  ⟨by decide,
   (server_execute_query_max_rows_clamping 20000 10000 (by decide)).1 (by decide),
   (server_execute_query_max_rows_clamping (-5) 10000 (by decide)).2.1 (by decide),
   (server_execute_query_max_rows_clamping 0 10000 (by decide)).2.2⟩

/-- C9: `refresh_client` is atomic with respect to the service state: a
loader failure (`CredentialRefreshError`), an unresolvable project
(`ConfigurationError`), or a client-construction failure leaves the client
handle and stored payload unchanged; on success the old handle is closed and
the new client and payload are installed in one state transition. -/
theorem refresh_client_atomicity (st : ServiceState)
    (loaded : Option CredentialPayload) (default_project : Option (List Char))
    (newHandle : Option Nat) :
    (loaded = none →
      refresh_client st loaded default_project newHandle
        = (st, some .credentialRefreshError)) ∧
    (∀ info, loaded = some info →
      effectiveProject default_project info.project_id = none →
      refresh_client st loaded default_project newHandle
        = (st, some .configurationError)) ∧
    (∀ info proj, loaded = some info →
      effectiveProject default_project info.project_id = some proj →
      newHandle = none →
      refresh_client st loaded default_project newHandle
        = (st, some .constructionError)) ∧
    (∀ info proj h, loaded = some info →
      effectiveProject default_project info.project_id = some proj →
      newHandle = some h →
      refresh_client st loaded default_project newHandle
        = ({ client := some h, credentials_info := some info,
             closedHandles := st.closedHandles ++ st.client.toList }, none)) := by
  refine ⟨?_, ?_, ?_, ?_⟩
  · intro hl
    subst hl
    rfl
  · intro info hl hp
    subst hl
    simp [refresh_client, hp]
  · intro info proj hl hp hn
    subst hl
    subst hn
    simp [refresh_client, hp]
  · intro info proj h hl hp hn
    subst hl
    subst hn
    simp [refresh_client, hp]

theorem refresh_client_atomicity_witness :
    refresh_client ⟨some 7, none, []⟩ none none (some 8)
      = (⟨some 7, none, []⟩, some .credentialRefreshError) ∧
    refresh_client ⟨some 7, none, []⟩ (some ⟨some "p".data⟩) none (some 8)
      = (⟨some 8, some ⟨some "p".data⟩, [7]⟩, none) := by
  constructor
  · exact (refresh_client_atomicity ⟨some 7, none, []⟩ none none (some 8)).1 rfl
  · exact (refresh_client_atomicity ⟨some 7, none, []⟩ (some ⟨some "p".data⟩)
      none (some 8)).2.2.2 ⟨some "p".data⟩ "p".data 8 rfl (by decide) rfl

/-- C10: `close` is idempotent: one call closes and clears the handle,
every further call leaves the state unchanged and closes nothing, and the
underlying handle close is invoked at most once per installed handle. -/
theorem close_idempotent_state (st : ServiceState) :
    (close st).client = none ∧
    close (close st) = close st ∧
    (∀ h, st.client = some h →
      (close st).closedHandles = st.closedHandles ++ [h]) ∧
    (st.client = none → close st = st) := by
  cases hc : st.client with
  | none =>
      refine ⟨?_, ?_, ?_, ?_⟩
      · simp [close, hc]
      · simp [close, hc]
      · intro h hh
        exact absurd hh (by simp)
      · intro _
        simp [close, hc]
  | some k =>
      refine ⟨?_, ?_, ?_, ?_⟩
      · simp [close, hc]
      · simp [close, hc]
      · intro h hh
        simp only [Option.some.injEq] at hh
        subst hh
        simp [close, hc]
      · intro hn
        exact absurd hn (by simp)

theorem close_idempotent_state_witness :
    (close ⟨some 5, none, []⟩).client = none ∧
    close (close ⟨some 5, none, []⟩) = close ⟨some 5, none, []⟩ ∧
    (close ⟨some 5, none, []⟩).closedHandles = [] ++ [5] :=
  ⟨(close_idempotent_state ⟨some 5, none, []⟩).1,
   (close_idempotent_state ⟨some 5, none, []⟩).2.1,
   (close_idempotent_state ⟨some 5, none, []⟩).2.2.1 5 rfl⟩

end BigQueryMCP
